import Mathlib

/-!
Shallow embedding of the liteiclink serwb framing layer
(src/liteiclink/serwb/packet.py and src/liteiclink/serwb/core.py).

The hardware is fully synchronous migen code; each FSM is embedded as a
pure per-tick step function, state plus inputs to next state plus
combinational outputs, following the statements of the source acts.
Machine integers are Nat with explicit truncation where the signal width
matters.
-/

/-- States of the Packetizer FSM (packet.py, FSM with reset state PREAMBLE). -/
inductive PState where
  | PREAMBLE
  | PORT_LENGTH
  | DATA
deriving DecidableEq, Repr

/-- Per-tick inputs of the Packetizer: the sink endpoint driven by the
producer (valid, port, length, packed payload word, last) and the ready of
the downstream source endpoint. -/
structure PIn where
  sink_valid   : Bool
  sink_port    : Nat
  sink_length  : Nat
  sink_data    : Nat
  sink_last    : Bool
  source_ready : Bool
deriving DecidableEq, Repr

/-- Combinational outputs of the Packetizer for one tick. -/
structure POut where
  source_valid : Bool
  source_data  : Nat
  sink_ready   : Bool
deriving DecidableEq, Repr

/-- One tick of the Packetizer FSM, translated from packet.py lines 54-80.
dw is the source word width (sum of the payload layout widths, 32 for
packet_description(32)).
PREAMBLE: when sink.valid, drive the magic word; advance on source.ready.
PORT-LENGTH: drive the header, port in bits 0-7 and length in bits 8-23;
advance on source.ready.
DATA: pass-through; the data_write statements pack the payload fields into
source.data (for the single-field layouts used concretely here the packed
word equals the data field, so the packed value is taken as sink_data);
next state is PREAMBLE exactly when source.ready and sink.last, the source
does not require sink.valid here. -/
def packetizerStep (dw : Nat) (s : PState) (i : PIn) : PState × POut :=
  match s with
  | PState.PREAMBLE =>
    if i.sink_valid then
      (if i.source_ready then PState.PORT_LENGTH else PState.PREAMBLE,
       ⟨true, 0x5aa55aa5 % 2 ^ dw, false⟩)
    else
      (PState.PREAMBLE, ⟨false, 0, false⟩)
  | PState.PORT_LENGTH =>
    (if i.source_ready then PState.DATA else PState.PORT_LENGTH,
     ⟨true, (i.sink_port % 256 + i.sink_length % 65536 * 256) % 2 ^ dw, false⟩)
  | PState.DATA =>
    (if i.source_ready && i.sink_last then PState.PREAMBLE else PState.DATA,
     ⟨i.sink_valid, i.sink_data % 2 ^ dw, i.source_ready⟩)

/-- Drive the 32-bit Packetizer with one packet (constant port and length
params, payload offered word by word, last on the final word) against an
always-ready consumer, collecting the words accepted on the source.
Fuel counts ticks. -/
def packetizerRun (fuel : Nat) (s : PState) (port length : Nat) (payload : List Nat) : List Nat :=
  match fuel with
  | 0 => []
  | fuel + 1 =>
    let i : PIn := ⟨!payload.isEmpty, port, length, payload.headD 0, payload.length == 1, true⟩
    let r := packetizerStep 32 s i
    let payload2 := if r.2.sink_ready && i.sink_valid then payload.tail else payload
    (if r.2.source_valid then [r.2.source_data] else []) ++ packetizerRun fuel r.1 port length payload2

/-- The wire frame the 32-bit Packetizer emits for one packet: one tick for
the preamble, one for the header, one per payload word. -/
def packetizerFrame (port length : Nat) (payload : List Nat) : List Nat :=
  packetizerRun (payload.length + 2) PState.PREAMBLE port length payload

/-- States of the Depacketizer FSM (packet.py, FSM with reset state PREAMBLE). -/
inductive DState where
  | PREAMBLE
  | PORT_LENGTH
  | DATA
deriving DecidableEq, Repr

/-- Registers of the Depacketizer: the FSM state and the three latched
signals port (8 bits), length (16 bits) and count (16 bits). -/
structure DReg where
  st     : DState
  port   : Nat
  length : Nat
  count  : Nat
deriving DecidableEq, Repr

/-- Per-tick inputs of the Depacketizer: the sink word stream, the ready of
the output consumer, and the done flag of the WaitTimer submodule (the FSM
reads timer.done and drives timer.wait; the timer itself is a litex
primitive outside src). -/
structure DIn where
  sink_valid   : Bool
  sink_data    : Nat
  source_ready : Bool
  timer_done   : Bool
deriving DecidableEq, Repr

/-- Combinational outputs of the Depacketizer for one tick. -/
structure DOut where
  source_valid  : Bool
  source_last   : Bool
  source_port   : Nat
  source_length : Nat
  source_data   : Nat
  sink_ready    : Bool
  timer_wait    : Bool
deriving DecidableEq, Repr

/-- The end-of-message comparison of the Depacketizer DATA state, from
packet.py line 137: count == (length[2:] - 1). length[2:] is the latched
16-bit length shifted right by two, a hard-coded divide by four; the
subtraction is signed in migen, so the comparison is taken over Int. -/
def depacketizerLast (length count : Nat) : Bool :=
  decide ((Int.ofNat count) = Int.ofNat (length / 4) - 1)

/-- Reset values of the Depacketizer registers. -/
def depacketizerInit : DReg :=
  ⟨DState.PREAMBLE, 0, 0, 0⟩

/-- One tick of the Depacketizer FSM, translated from packet.py lines 117-151.
PREAMBLE: always ready; advance when a word equal to the magic arrives.
PORT-LENGTH: always ready, timer armed; on a valid word latch count := 0,
port := data[0:8], length := data[8:24] and advance.
DATA: forward the handshake (source.valid := sink.valid, sink.ready :=
source.ready), drive port and length from the registers, timer armed; on
timer.done return to PREAMBLE, otherwise on an accepted word increment
count and return to PREAMBLE when last. Note that the data_write
statements of the source assign sink.data slices from the source payload
fields, not the reverse, so no statement drives the source payload fields
and source.data stays at its reset value 0. -/
def depacketizerStep (s : DReg) (i : DIn) : DReg × DOut :=
  match s.st with
  | DState.PREAMBLE =>
    let s2 := if i.sink_valid && (i.sink_data == 0x5aa55aa5)
      then { s with st := DState.PORT_LENGTH } else s
    (s2, ⟨false, false, 0, 0, 0, true, false⟩)
  | DState.PORT_LENGTH =>
    let s2 := if i.sink_valid then
        { st := DState.DATA, port := i.sink_data % 256,
          length := i.sink_data / 256 % 65536, count := 0 }
      else s
    (s2, ⟨false, false, 0, 0, 0, true, true⟩)
  | DState.DATA =>
    let lastv := depacketizerLast s.length s.count
    let out : DOut := ⟨i.sink_valid, lastv, s.port, s.length, 0, i.source_ready, true⟩
    let s2 :=
      if i.timer_done then { s with st := DState.PREAMBLE }
      else if i.sink_valid && i.source_ready then
        { s with count := (s.count + 1) % 65536,
                 st := if lastv then DState.PREAMBLE else DState.DATA }
      else s
    (s2, out)

/-- Feed a word list into the Depacketizer with an always-ready consumer,
link up and no timeout expiry (timer.done low), collecting the accepted
output flits as (port, length, data, last). -/
def depacketizerRun (fuel : Nat) (s : DReg) (words : List Nat) : List (Nat × Nat × Nat × Bool) :=
  match fuel with
  | 0 => []
  | fuel + 1 =>
    let i : DIn := ⟨!words.isEmpty, words.headD 0, true, false⟩
    let r := depacketizerStep s i
    let words2 := if r.2.sink_ready && i.sink_valid then words.tail else words
    (if r.2.source_valid then [(r.2.source_port, r.2.source_length, r.2.source_data, r.2.source_last)] else [])
      ++ depacketizerRun fuel r.1 words2

/-- Modelled from the spec: the end-of-message condition as stated in
section 4.2, counter = length / word_byte_width - 1, where word_byte_width
is the byte width of the configured payload word of the instance. Stated
over Int to mirror the signed comparison. -/
def specLast (word_byte_width length count : Nat) : Bool :=
  decide ((Int.ofNat count) = Int.ofNat (length / word_byte_width) - 1)

/-- A flit of the packet streams of core.py do_finalize: the endpoint
signals forwarded by the keep sets there (valid, last, data, length) plus
the port param. The backward-flowing ready is handled by the run drivers. -/
structure PacketFlit where
  valid  : Bool
  last   : Bool
  data   : Nat
  port   : Nat
  length : Nat
deriving DecidableEq, Repr

/-- The per-producer stamping of core.py do_finalize lines 92-95: the
registered endpoint is connected to the intermediate endpoint keeping only
valid, ready, last, data and length, and the intermediate port signal (8
bits wide) is driven to the registration key k; the port the producer
drives is not forwarded. -/
def stampPort (k : Nat) (f : PacketFlit) : PacketFlit :=
  { valid := f.valid, last := f.last, data := f.data, length := f.length,
    port := k % 256 }

/-- The reset wires of SERWBCore. -/
structure ResetWires where
  etherbone    : Bool
  packetizer   : Bool
  depacketizer : Bool
  tx_fifo      : Bool
  rx_fifo      : Bool
deriving DecidableEq, Repr

/-- The reset wiring of core.py lines 67-74: when with_rst_on_link_down,
each reset input is driven to the negation of phy.init.ready; otherwise
the wires stay at their reset value 0. -/
def serwbResets (with_rst_on_link_down phy_init_ready : Bool) : ResetWires :=
  if with_rst_on_link_down then
    ⟨!phy_init_ready, !phy_init_ready, !phy_init_ready, !phy_init_ready, !phy_init_ready⟩
  else
    ⟨false, false, false, false, false⟩

/-- Modelled from the spec: the ResetInserter wrapper (a migen primitive
outside src) makes the synchronous state of the wrapped module return to
its initial value while the reset input is asserted (section 4.5, forced
to its initial state). -/
def withReset {S I : Type} (init : S) (step : S → I → S) (rst : Bool) (s : S) (i : I) : S :=
  if rst then init else step s i

/-- Modelled from the spec: the elastic buffer (stream.SyncFIFO, litex
library code outside src) is a bounded queue of words; a push appends when
there is room, a pop removes the head (sections 1 and 3); reset-to-empty
is applied through withReset with initial state []. -/
def fifoStep (depth : Nat) (q : List Nat) (push : Option Nat) (pop : Bool) : List Nat :=
  let q2 := if pop then q.tail else q
  match push with
  | some w => if q.length < depth then q2 ++ [w] else q2
  | none   => q2

/-- The registration tables of SERWBCore: downstream and upstream
port-to-endpoint maps, kept in insertion order as Python dicts are. The
endpoints themselves are abstracted as Nat identifiers. -/
structure SERWBEndpoints where
  downstream : List (Nat × Nat)
  upstream   : List (Nat × Nat)
deriving DecidableEq, Repr

/-- SERWBCore.add_downstream_endpoint, core.py lines 76-79: raise
ValueError when the port is already a downstream key, otherwise insert. -/
def add_downstream_endpoint (t : SERWBEndpoints) (port ep : Nat) : Except String SERWBEndpoints :=
  if port ∈ t.downstream.map Prod.fst then
    Except.error "Downstream endpoint for port already exists."
  else
    Except.ok { t with downstream := t.downstream ++ [(port, ep)] }

/-- SERWBCore.add_upstream_endpoint, core.py lines 82-85. -/
def add_upstream_endpoint (t : SERWBEndpoints) (port ep : Nat) : Except String SERWBEndpoints :=
  if port ∈ t.upstream.map Prod.fst then
    Except.error "Upstream endpoint for port already exists."
  else
    Except.ok { t with upstream := t.upstream ++ [(port, ep)] }

/-- The state update of a call to add_downstream_endpoint on the Python
object: the raise happens before any mutation, so on error the tables are
unchanged and the error is surfaced. -/
def addDownstreamUpdate (t : SERWBEndpoints) (port ep : Nat) : SERWBEndpoints × Option String :=
  match add_downstream_endpoint t port ep with
  | Except.ok t2 => (t2, none)
  | Except.error e => (t, some e)

/-- The state update of a call to add_upstream_endpoint on the Python
object. -/
def addUpstreamUpdate (t : SERWBEndpoints) (port ep : Nat) : SERWBEndpoints × Option String :=
  match add_upstream_endpoint t port ep with
  | Except.ok t2 => (t2, none)
  | Except.error e => (t, some e)

/-- The select computation of core.py do_finalize lines 109-110: one
combinational If per registered upstream key, in registration order, each
overwriting sel with its index when the incoming port equals the key; sel
keeps its reset value 0 when no If fires. The fold mirrors the statement
order semantics of the migen comb list, a later match wins. -/
def dispatcherSelAux (port i sel : Nat) : List Nat → Nat
  | [] => sel
  | k :: ks => dispatcherSelAux port (i + 1) (if port = k then i else sel) ks

/-- The Dispatcher sel value for a list of registered upstream ports in
registration order and an incoming header port. -/
def dispatcherSel (keys : List Nat) (port : Nat) : Nat :=
  dispatcherSelAux port 0 0 keys

/-- Modelled from the spec: the Dispatcher (litex library code outside
src) demultiplexes the Depacketizer stream to the consumer selected by
sel; with one_hot = False, sel is the index into the slave list built in
registration order (section 4.4). -/
def dispatcherRoute (slaves : List Nat) (sel : Nat) : Option Nat :=
  slaves.get? sel

/-- A word offered to the Arbiter by one producer on one tick: the payload
word and the end-of-message marker. -/
structure Flit where
  data : Nat
  last : Bool
deriving DecidableEq, Repr

/-- Modelled from the spec: the idle-selection of the Arbiter (litex
library code outside src) picks some producer currently offering a word;
the concrete policy is an implementation choice per section 9, taken here
as the lowest offering index. -/
def arbiterPick (offers : List (Option Flit)) : Option Nat :=
  offers.findIdx? Option.isSome

/-- Modelled from the spec: one tick of the Arbiter contract of section
4.3. The state is the current grant. While a producer is granted, only its
words are forwarded and the grant is released exactly when its
end-of-message word is accepted; while idle, a producer offering a word is
granted and its word forwarded the same way. The output is the word put on
the Packetizer sink this tick, tagged with the producer it came from. -/
def arbiterStep (grant : Option Nat) (offers : List (Option Flit)) : Option Nat × Option (Nat × Flit) :=
  match grant with
  | some j =>
    match offers.getD j none with
    | some f => (if f.last then none else some j, some (j, f))
    | none   => (some j, none)
  | none =>
    match arbiterPick offers with
    | some j =>
      match offers.getD j none with
      | some f => (if f.last then none else some j, some (j, f))
      | none   => (none, none)
    | none => (none, none)

/-- Run the Arbiter over a schedule giving, for every tick, the word each
producer offers (none when a producer is idle or stalled that tick),
collecting the tagged words forwarded to the Packetizer sink. -/
def arbiterRun (grant : Option Nat) : List (List (Option Flit)) → List (Nat × Flit)
  | [] => []
  | offers :: rest =>
    let r := arbiterStep grant offers
    r.2.toList ++ arbiterRun r.1 rest

/-- Frame atomicity of a tagged word stream: scanning with the producer
that owns the currently open frame (none between frames), every word of a
frame carries the tag that opened it. -/
def chunkOk : Option Nat → List (Nat × Flit) → Bool
  | _, [] => true
  | none, (j, f) :: rest => chunkOk (if f.last then none else some j) rest
  | some g, (j, f) :: rest => (j == g) && chunkOk (if f.last then none else some j) rest

/-! Theorems. -/

/-- C1: code-bug evaluation. Feeding the word stream the Packetizer
produces for Packet(port 3, length 4, payload [0xAAAABBBB]) directly into
the Depacketizer (buffers identity, link up, no timeout expiry) yields one
output word with the right port, length and end marker but payload word 0
instead of 0xAAAABBBB: the DATA state of the Depacketizer never drives its
source payload fields (its data_write statements assign the sink data
slices from them instead), so the payload is not reproduced bit-for-bit. -/
theorem c1_roundtrip_zeroes_payload :
    depacketizerRun 5 depacketizerInit (packetizerFrame 3 4 [0xAAAABBBB]) = [(3, 4, 0, true)] ∧
    (0xAAAABBBB : Nat) ≠ 0 := by
  decide

/-- C2 counterexample: the frame the 32-bit Packetizer emits for
Packet(port 3, length 8, payload [0xAAAABBBB, 0xCCCCDDDD]) is not the
claimed word sequence with header 0x00180003. -/
theorem c2_frame_not_as_claimed :
    packetizerFrame 3 8 [0xAAAABBBB, 0xCCCCDDDD] ≠
      [0x5AA55AA5, 0x00180003, 0xAAAABBBB, 0xCCCCDDDD] := by
  decide

/-- C2 amended: with port 3 in bits 0-7 and length 8 in bits 8-23 the
header word is 0x00000803, so the emitted frame is
[0x5AA55AA5, 0x00000803, 0xAAAABBBB, 0xCCCCDDDD]. -/
theorem c2_frame_amended :
    packetizerFrame 3 8 [0xAAAABBBB, 0xCCCCDDDD] =
      [0x5AA55AA5, 0x00000803, 0xAAAABBBB, 0xCCCCDDDD] := by
  decide

/-- C3 counterexample: in the DATA state, on a tick with sink.valid low
but source.ready and sink.last high, the Packetizer transitions back to
PREAMBLE even though no word is accepted (source.valid is low). -/
theorem c3_exit_without_accept :
    (packetizerStep 32 PState.DATA ⟨false, 0, 0, 0, true, true⟩).1 = PState.PREAMBLE ∧
    (packetizerStep 32 PState.DATA ⟨false, 0, 0, 0, true, true⟩).2.source_valid = false := by
  decide

/-- C3 amended: in the DATA state the Packetizer transitions back to
PREAMBLE exactly when source.ready and sink.last are both asserted;
sink.valid is not part of the condition. -/
theorem c3_data_exit_iff_ready_and_last (i : PIn) :
    (packetizerStep 32 PState.DATA i).1 = PState.PREAMBLE ↔
      (i.source_ready = true ∧ i.sink_last = true) := by
  obtain ⟨v, p, l, d, la, r⟩ := i
  cases la <;> cases r <;> simp [packetizerStep]

/-- C4 counterexample: in PORT-LENGTH with the idle timer armed
(timer.wait asserted) and expired (timer.done high) but no valid input
word, the Depacketizer stays in PORT-LENGTH instead of returning to
PREAMBLE. -/
theorem c4_port_length_ignores_timeout :
    (depacketizerStep ⟨DState.PORT_LENGTH, 0, 0, 0⟩ ⟨false, 0, true, true⟩).1.st = DState.PORT_LENGTH ∧
    (depacketizerStep ⟨DState.PORT_LENGTH, 0, 0, 0⟩ ⟨false, 0, true, true⟩).2.timer_wait = true := by
  decide

/-- C4 amended: the idle-timeout escape to PREAMBLE exists from the DATA
state only; in PORT-LENGTH the timer is armed but its expiry causes no
transition, the state is left only on a valid input word. -/
theorem c4_timeout_escape_from_data_only (s : DReg) (i : DIn)
    (hdone : i.timer_done = true) :
    (s.st = DState.DATA → (depacketizerStep s i).1.st = DState.PREAMBLE) ∧
    (s.st = DState.PORT_LENGTH → i.sink_valid = false →
      (depacketizerStep s i).1.st = DState.PORT_LENGTH ∧
      (depacketizerStep s i).2.timer_wait = true) := by
  obtain ⟨st, p, l, c⟩ := s
  refine ⟨fun h1 => ?_, fun h2 hv => ?_⟩
  · cases h1
    simp [depacketizerStep, hdone]
  · cases h2
    simp [depacketizerStep, hv]

/-- C4 witness: from DATA with the timer expired the Depacketizer returns
to PREAMBLE. -/
theorem c4_timeout_escape_from_data_only_w :
    (depacketizerStep ⟨DState.DATA, 0, 8, 0⟩ ⟨false, 0, false, true⟩).1.st = DState.PREAMBLE :=
  (c4_timeout_escape_from_data_only ⟨DState.DATA, 0, 8, 0⟩ ⟨false, 0, false, true⟩ rfl).1 rfl

/-- C5 counterexample: for an instance whose configured payload word is 5
bytes wide (the 40-bit AXI-Lite channels), a frame of length 20 bytes has
its final payload word at counter 3 = 20 / 5 - 1, yet the Depacketizer
output does not assert the end-of-message marker there, because the
comparison hard-codes a shift by two. -/
theorem c5_last_ignores_configured_width :
    (depacketizerStep ⟨DState.DATA, 0, 20, 3⟩ ⟨true, 0, true, false⟩).2.source_last = false ∧
    specLast 5 20 3 = true := by
  decide

/-- C5 amended: in the DATA state the end-of-message marker equals the
spec formula with word_byte_width hard-coded to 4 (count = length[2:] - 1)
for every instance, regardless of the configured payload layout. -/
theorem c5_last_hardcoded_div4 (s : DReg) (i : DIn) (h : s.st = DState.DATA) :
    (depacketizerStep s i).2.source_last = specLast 4 s.length s.count := by
  obtain ⟨st, p, l, c⟩ := s
  cases h
  simp [depacketizerStep, depacketizerLast, specLast]

/-- C5 witness: concrete DATA-state tick evaluating both sides. -/
theorem c5_last_hardcoded_div4_w :
    (depacketizerStep ⟨DState.DATA, 0, 8, 1⟩ ⟨true, 0, true, false⟩).2.source_last = specLast 4 8 1 :=
  c5_last_hardcoded_div4 ⟨DState.DATA, 0, 8, 1⟩ ⟨true, 0, true, false⟩ rfl

/-- Helper: the Arbiter run satisfies frame atomicity from any grant
state, by induction over the schedule. -/
theorem chunkOk_arbiterRun (sched : List (List (Option Flit))) :
    ∀ g : Option Nat, chunkOk g (arbiterRun g sched) = true := by
  induction sched with
  | nil => intro g; cases g <;> rfl
  | cons offers rest ih =>
    intro g
    cases g with
    | none =>
      cases hp : arbiterPick offers with
      | none => simpa [arbiterRun, arbiterStep, hp] using ih none
      | some j =>
        cases hf : offers[j]?.getD none with
        | none => simpa [arbiterRun, arbiterStep, hp, hf] using ih none
        | some f =>
          cases hl : f.last with
          | true => simpa [arbiterRun, arbiterStep, hp, hf, hl, chunkOk] using ih none
          | false => simpa [arbiterRun, arbiterStep, hp, hf, hl, chunkOk] using ih (some j)
    | some g0 =>
      cases hf : offers[g0]?.getD none with
      | none => simpa [arbiterRun, arbiterStep, hf] using ih (some g0)
      | some f =>
        cases hl : f.last with
        | true => simpa [arbiterRun, arbiterStep, hf, hl, chunkOk] using ih none
        | false => simpa [arbiterRun, arbiterStep, hf, hl, chunkOk] using ih (some g0)

/-- C6: with at least two producers, for every per-tick activity pattern
of the producers, the tagged word stream the Arbiter feeds to the
Packetizer is frame-atomic: no frame mixes words of two producers. -/
theorem c6_arbiter_frame_atomicity (K : Nat) (sched : List (List (Option Flit)))
    (hK : 2 ≤ K) (hw : (sched.all fun o => o.length == K) = true) :
    chunkOk none (arbiterRun none sched) = true :=
  chunkOk_arbiterRun sched none

/-- C6 witness: a concrete two-producer schedule with an interleaving
opportunity inside the first frame. -/
theorem c6_arbiter_frame_atomicity_w :
    chunkOk none (arbiterRun none
      [[some ⟨10, false⟩, some ⟨20, true⟩],
       [none, some ⟨21, true⟩],
       [some ⟨11, true⟩, some ⟨22, true⟩]]) = true :=
  c6_arbiter_frame_atomicity 2
    [[some ⟨10, false⟩, some ⟨20, true⟩],
     [none, some ⟨21, true⟩],
     [some ⟨11, true⟩, some ⟨22, true⟩]] (by decide) (by decide)

/-- C7: a producer registered downstream under port k has k stamped onto
its stream before arbitration (its own port value is not forwarded), and
the header word the Packetizer then emits in PORT-LENGTH carries k in its
low eight bits, for any values the producer drives. -/
theorem c7_registered_port_stamped (k len d : Nat) (f : PacketFlit) (v l r : Bool)
    (hk : k < 256) :
    (stampPort k f).port = k ∧
    (packetizerStep 32 PState.PORT_LENGTH
        ⟨v, (stampPort k f).port, len, d, l, r⟩).2.source_data % 256 = k := by
  have h1 : k % 256 = k := Nat.mod_eq_of_lt hk
  constructor
  · simpa [stampPort] using h1
  · simp only [stampPort, packetizerStep]
    have hp : (2 : Nat) ^ 32 = 4294967296 := by norm_num
    rw [hp]
    omega

/-- C7 witness: a producer driving port 99 registered under port 5. -/
theorem c7_registered_port_stamped_w :
    (stampPort 5 ⟨true, true, 7, 99, 4⟩).port = 5 ∧
    (packetizerStep 32 PState.PORT_LENGTH
        ⟨true, (stampPort 5 ⟨true, true, 7, 99, 4⟩).port, 4, 7, true, true⟩).2.source_data % 256 = 5 :=
  c7_registered_port_stamped 5 4 7 ⟨true, true, 7, 99, 4⟩ true true true (by decide)

/-- C8: in a SERWBCore built with with_rst_on_link_down, on a tick where
phy.init.ready is deasserted the Etherbone, Packetizer, Depacketizer and
both FIFO reset wires are all asserted, and each held-in-reset component
steps to its initial state with queued content discarded. -/
theorem c8_link_down_resets_components :
    serwbResets true false = ⟨true, true, true, true, true⟩ ∧
    (∀ (s : PState) (i : PIn),
      withReset PState.PREAMBLE (fun s i => (packetizerStep 32 s i).1)
        (serwbResets true false).packetizer s i = PState.PREAMBLE) ∧
    (∀ (s : DReg) (i : DIn),
      withReset depacketizerInit (fun s i => (depacketizerStep s i).1)
        (serwbResets true false).depacketizer s i = depacketizerInit) ∧
    (∀ (q : List Nat) (push : Option Nat) (pop : Bool),
      withReset ([] : List Nat) (fun q a => fifoStep 8 q a.1 a.2)
        (serwbResets true false).tx_fifo q (push, pop) = []) ∧
    (∀ (q : List Nat) (push : Option Nat) (pop : Bool),
      withReset ([] : List Nat) (fun q a => fifoStep 8 q a.1 a.2)
        (serwbResets true false).rx_fifo q (push, pop) = []) := by
  refine ⟨rfl, ?_, ?_, ?_, ?_⟩ <;> intros <;> rfl

/-- C9: registration raises exactly when the port is already registered in
the same direction, the tables are unchanged on error, and one port value
can be registered once downstream and once upstream without error. -/
theorem c9_duplicate_port_registration (t : SERWBEndpoints) (p ep ep2 : Nat) :
    ((addDownstreamUpdate t p ep).2.isSome = true ↔ p ∈ t.downstream.map Prod.fst) ∧
    ((addUpstreamUpdate t p ep).2.isSome = true ↔ p ∈ t.upstream.map Prod.fst) ∧
    ((addDownstreamUpdate t p ep).2.isSome = true → (addDownstreamUpdate t p ep).1 = t) ∧
    ((addUpstreamUpdate t p ep).2.isSome = true → (addUpstreamUpdate t p ep).1 = t) ∧
    (p ∉ t.downstream.map Prod.fst → p ∉ t.upstream.map Prod.fst →
      (addDownstreamUpdate t p ep).2 = none ∧
      (addUpstreamUpdate (addDownstreamUpdate t p ep).1 p ep2).2 = none) := by
  by_cases hd : p ∈ t.downstream.map Prod.fst <;>
    by_cases hu : p ∈ t.upstream.map Prod.fst <;>
      simp [addDownstreamUpdate, addUpstreamUpdate,
        add_downstream_endpoint, add_upstream_endpoint, hd, hu]

/-- Helper: the chained If statements never overwrite sel when no
registered key equals the incoming port. -/
theorem dispatcherSelAux_no_match (port : Nat) (l : List Nat) :
    ∀ i sel : Nat, (∀ k ∈ l, port ≠ k) → dispatcherSelAux port i sel l = sel := by
  induction l with
  | nil => intro i sel h2; rfl
  | cons k ks ih =>
    intro i sel h2
    have hk : port ≠ k := h2 k (List.mem_cons_self k ks)
    simp only [dispatcherSelAux, if_neg hk]
    exact ih _ _ (fun x hx => h2 x (List.mem_cons_of_mem k hx))

/-- C10: a received frame whose header port equals no registered upstream
port leaves sel at its default 0, so the Dispatcher delivers it to the
upstream consumer registered first. -/
theorem c10_unmatched_port_to_first (keys slaves : List Nat) (port : Nat)
    (h : port ∉ keys) :
    dispatcherSel keys port = 0 ∧
    dispatcherRoute slaves (dispatcherSel keys port) = slaves.head? := by
  have hsel : dispatcherSel keys port = 0 := by
    apply dispatcherSelAux_no_match
    intro k hk he
    exact h (he ▸ hk)
  refine ⟨hsel, ?_⟩
  rw [hsel]
  cases slaves <;> rfl

/-- C10 witness: ports 1 and 2 registered, incoming port 5 goes to the
first consumer. -/
theorem c10_unmatched_port_to_first_w :
    dispatcherSel [1, 2] 5 = 0 ∧
    dispatcherRoute [100, 200] (dispatcherSel [1, 2] 5) = [100, 200].head? :=
  c10_unmatched_port_to_first [1, 2] [100, 200] 5 (by decide)
